import Mathlib

/-!
Verification development for the GeoCam secure backend
(`Web_Backend/secure_backend.py` and `Web_Backend/database.py`).

The Python source is shallowly embedded: each backend function becomes a
Lean definition over explicit state (the sqlite `device_registry` and
`verification_logs` tables become lists of rows; the postgres
`geocam_devices` table likewise).  Library primitives that are not
repository code — `base64.b64decode`, `datetime.fromisoformat` combined
with the `datetime.now()` subtraction, `hashlib.sha512`, and the
`coincurve` secp256k1 primitive — are modelled abstractly by their
observable outcomes (success with a value, or a raised exception), which
is exactly the granularity at which `secure_backend.py` consumes them.
-/

namespace GeoCam

/-- Byte strings are lists of byte values. -/
abbrev Bytes := List Nat

/-- A wire value as handed to `base64.b64decode`: either it decodes to a
byte string or the decode raises.  The base64 alphabet itself is a library
primitive, not repository code, so only the outcome is modelled. -/
inductive B64Wire
  | ok (bytes : Bytes)
  | bad
deriving DecidableEq, Repr

/-- Outcome of `base64.b64decode` on a wire value. -/
def b64decode : B64Wire → Option Bytes
  | .ok bs => some bs
  | .bad => none

/-- A claimed-timestamp string as consumed by the block
`datetime.fromisoformat(timestamp.replace('Z', '+00:00'))` followed by
`(current_time - ts).total_seconds()` in `verify_secp256k1_signature`
(secure_backend.py lines 261-264): `parses t` means the whole block
succeeds and the parsed instant is `t` (in seconds); `unparsable` means
some step of the block raises (covering both genuine parse failures and
the naive/aware subtraction failure). -/
inductive TsWire
  | parses (t : Int)
  | unparsable
deriving DecidableEq, Repr

/-- Value of one hex digit character, as used by `bytes.fromhex`. -/
def hexDigit? (c : Char) : Option Nat :=
  if '0' ≤ c ∧ c ≤ '9' then some (c.toNat - '0'.toNat)
  else if 'a' ≤ c ∧ c ≤ 'f' then some (c.toNat - 'a'.toNat + 10)
  else if 'A' ≤ c ∧ c ≤ 'F' then some (c.toNat - 'A'.toNat + 10)
  else none

/-- Model of `bytes.fromhex` on a character list: pairs of hex digits, an
odd count or a non-hex character raises (returns `none`).  The ASCII
whitespace tolerance of the library primitive is not modelled; no claim
depends on it, and the length-128 guard in the source runs on the raw
string before `fromhex` is ever called. -/
def fromhexList : List Char → Option Bytes
  | [] => some []
  | [_] => none
  | c1 :: c2 :: rest =>
    match hexDigit? c1, hexDigit? c2, fromhexList rest with
    | some hi, some lo, some bs => some ((16 * hi + lo) :: bs)
    | _, _, _ => none

/-- Model of `bytes.fromhex` on a string. -/
def fromhex (s : String) : Option Bytes := fromhexList s.toList

/-- Outcome of the `coincurve` secp256k1 verification primitive
(`public_key.verify(signature_bytes, hash_bytes, hasher=None)`): a boolean
result, or a raised exception with its message. -/
inductive CryptoOutcome
  | ok (b : Bool)
  | exn (msg : String)
deriving DecidableEq, Repr

/-- Ambient collaborators of the backend, abstracted: the secp256k1
primitive (arguments: public key bytes, signature bytes, hash bytes), the
`SECP256K1_AVAILABLE` flag, the current time (`datetime.now()`) as an
instant in seconds and as its `isoformat()` string, `hashlib.sha512(...)
.hexdigest()`, and whether the best-effort `last_activity` UPDATE in
`verify_image_secure` (lines 500-513) succeeds or raises. -/
structure Env where
  prim : Bytes → Bytes → Bytes → CryptoOutcome
  secp256k1_available : Bool
  now : Int
  nowIso : String
  sha512hex : Bytes → String
  activity_update_ok : Bool

/-- The `security_checks` dict of `verify_secp256k1_signature`, all flags
initially false. -/
structure SecurityChecks where
  signature_format : Bool := false
  public_key_format : Bool := false
  hash_format : Bool := false
  timestamp_valid : Bool := false
  signature_verified : Bool := false
deriving DecidableEq, Repr

/-- The `security_checks` dict as initialised (lines 212-218). -/
def noChecks : SecurityChecks := ⟨false, false, false, false, false⟩

/-- The `verification_result` dict returned by
`verify_secp256k1_signature`. -/
structure VerificationResult where
  valid : Bool
  error : Option String
  security_checks : SecurityChecks
deriving DecidableEq, Repr

/-- Security Check 5 of `verify_secp256k1_signature` (lines 274-298):
cryptographic verification via `coincurve` when available, with any
exception from the primitive converted into an error result; the fallback
branch when the library is unavailable. -/
def cryptoCheck (env : Env) (public_key_bytes signature_bytes hash_bytes : Bytes)
    (checks : SecurityChecks) : VerificationResult :=
  if env.secp256k1_available then
    match env.prim public_key_bytes signature_bytes hash_bytes with
    | .ok true => ⟨true, none, { checks with signature_verified := true }⟩
    | .ok false => ⟨false, some "Signature verification failed",
        { checks with signature_verified := false }⟩
    | .exn m => ⟨false, some ("Cryptographic verification failed: " ++ m), checks⟩
  else
    ⟨true, some "Fallback verification used - install coincurve for security", checks⟩

/-- Model of `verify_secp256k1_signature` (secure_backend.py lines
204-307).  The five security checks run in source order, returning early
with the source's exact error string on the first failure; the
`security_checks` flags set so far are carried into every early return,
mirroring the progressive dict mutation.  A `timestamp` of `none` models
the falsy case of `if timestamp:` (the argument absent or the empty
string), in which the replay check is skipped. -/
def verify_secp256k1_signature (env : Env) (signature_base64 : B64Wire)
    (data_hash : String) (public_key_base64 : B64Wire)
    (timestamp : Option TsWire) : VerificationResult :=
  match b64decode signature_base64 with
  | none => ⟨false, some "Invalid signature encoding", noChecks⟩
  | some signature_bytes =>
    if signature_bytes.length ≠ 64 then
      ⟨false, some "Invalid signature length", noChecks⟩
    else
      let c1 : SecurityChecks := { noChecks with signature_format := true }
      match b64decode public_key_base64 with
      | none => ⟨false, some "Invalid public key encoding", c1⟩
      | some public_key_bytes =>
        if public_key_bytes.length ≠ 33 then
          ⟨false, some "Invalid public key length", c1⟩
        else if ¬ (public_key_bytes.get? 0 = some 2 ∨ public_key_bytes.get? 0 = some 3) then
          ⟨false, some "Invalid compressed public key format", c1⟩
        else
          let c2 : SecurityChecks := { c1 with public_key_format := true }
          if data_hash.length ≠ 128 then
            ⟨false, some "Invalid hash length", c2⟩
          else
            match fromhex data_hash with
            | none => ⟨false, some "Invalid hash format", c2⟩
            | some hash_bytes =>
              let c3 : SecurityChecks := { c2 with hash_format := true }
              match timestamp with
              | none => cryptoCheck env public_key_bytes signature_bytes hash_bytes c3
              | some .unparsable =>
                ⟨false, some "Invalid timestamp format", c3⟩
              | some (.parses ts) =>
                if (env.now - ts).natAbs > 300 then
                  ⟨false, some "Signature timestamp too old (replay attack protection)", c3⟩
                else
                  cryptoCheck env public_key_bytes signature_bytes hash_bytes
                    { c3 with timestamp_valid := true }

/-- A row of the sqlite `device_registry` table (secure_backend.py lines
55-71).  The stored `public_key_base64` TEXT column is kept in wire form,
since `verify_secp256k1_signature` b64-decodes it again. -/
structure DeviceRow where
  id : Nat
  installation_id : String
  device_model : String
  os_name : String
  os_version : String
  public_key_base64 : B64Wire
  public_key_id : String
  public_key_fingerprint : String
  device_fingerprint : String
  registration_timestamp : String
  last_activity : String
  is_active : Bool
deriving DecidableEq, Repr

/-- Model of `get_device_by_public_key_id` (lines 91-119): first row with
matching `public_key_id` and `is_active = 1`, else `None`. -/
def get_device_by_public_key_id (registry : List DeviceRow) (public_key_id : String) :
    Option DeviceRow :=
  registry.find? (fun d => d.public_key_id == public_key_id && d.is_active)

/-- A row of the sqlite `verification_logs` table (lines 74-86). -/
structure LogRow where
  public_key_id : String
  image_hash : String
  signature_valid : Bool
  verification_timestamp : String
  client_ip : String
  user_agent : String
deriving DecidableEq, Repr

/-- Model of `log_verification_attempt` (lines 309-348): one INSERT into
`verification_logs`.  Storage is assumed available here; the function's
own catch-and-log of an insert failure is outside every claim. -/
def log_verification_attempt (env : Env) (public_key_id image_hash : String)
    (signature_valid : Bool) (client_ip user_agent : String)
    (logs : List LogRow) : List LogRow :=
  logs ++ [⟨public_key_id, image_hash, signature_valid, env.nowIso, client_ip, user_agent⟩]

/-- The mutable backend state: the two sqlite tables. -/
structure BackendState where
  device_registry : List DeviceRow
  verification_logs : List LogRow
deriving DecidableEq, Repr

/-- The JSON body of a `/api/verify-image-secure` request (lines 436-443).
`none` in a field models `data.get(...)` returning an absent or falsy
value, matching the `if not ...` guards of the source. -/
structure VerifyRequest where
  image_data : Option B64Wire
  signature : Option B64Wire
  public_key_id : Option String
  timestamp : Option TsWire
  client_ip : String
  user_agent : String

/-- Observable response of the verify-image-secure handler: an error with
its HTTP status code, or the success payload fields the claims mention. -/
inductive VerifyResponse
  | err (msg : String) (code : Nat)
  | done (signature_valid : Bool) (security_checks : SecurityChecks)
      (error_details : Option String) (image_hash : String) (device_model : String)
deriving DecidableEq, Repr

/-- Model of the `verify_image_secure` handler, JSON branch
(secure_backend.py lines 418-547); the multipart branch differs only in
how the image bytes and form fields are obtained upstream of the hash.
The argument `none` for the request models `request.get_json()` returning
nothing.  Early returns leave the state unchanged; once the image hash is
computed, `verify_secp256k1_signature` runs, exactly one audit row is
appended via `log_verification_attempt`, and on a valid signature the
device's `last_activity` is updated best-effort (the UPDATE's success is
`env.activity_update_ok`; its failure is swallowed, lines 512-513). -/
def verify_image_secure (env : Env) (req : Option VerifyRequest) (st : BackendState) :
    VerifyResponse × BackendState :=
  match req with
  | none => (.err "No JSON data provided" 400, st)
  | some data =>
    match data.signature, data.public_key_id with
    | none, _ => (.err "Missing required fields: signature and public_key_id" 400, st)
    | some _, none => (.err "Missing required fields: signature and public_key_id" 400, st)
    | some signature, some public_key_id =>
      match get_device_by_public_key_id st.device_registry public_key_id with
      | none => (.err "Device not found or inactive" 404, st)
      | some device_info =>
        match data.image_data with
        | none => (.err "No image data provided" 400, st)
        | some image_wire =>
          match b64decode image_wire with
          | none => (.err "Invalid base64 image data" 400, st)
          | some image_bytes =>
            if image_bytes.length > 50 * 1024 * 1024 then
              (.err "Image too large (max 50MB)" 413, st)
            else
              let image_hash := env.sha512hex image_bytes
              let verification_result := verify_secp256k1_signature env signature
                image_hash device_info.public_key_base64 data.timestamp
              let is_signature_valid := verification_result.valid
              let logs1 := log_verification_attempt env public_key_id image_hash
                is_signature_valid data.client_ip data.user_agent st.verification_logs
              let registry1 :=
                if is_signature_valid && env.activity_update_ok then
                  st.device_registry.map (fun d =>
                    if d.public_key_id == public_key_id then
                      { d with last_activity := env.nowIso }
                    else d)
                else st.device_registry
              (.done is_signature_valid verification_result.security_checks
                (if is_signature_valid then none else verification_result.error)
                image_hash device_info.device_model,
               ⟨registry1, logs1⟩)

/-- The `public_key` sub-dictionary of a registration request
(secure_backend.py lines 137, 179-181). -/
structure PublicKeyPayload where
  keyBase64 : B64Wire
  keyId : String
  algorithm : String
  fingerprint : String
deriving Repr

/-- The `registration_data` dictionary consumed by
`register_device_secure` (lines 127-134), after the endpoint has checked
the required fields are present. -/
structure RegistrationData where
  installation_id : String
  device_model : String
  os_name : String
  os_version : String
  public_key : PublicKeyPayload
  device_fingerprint : String
  registration_timestamp : String
deriving Repr

/-- The result dictionary of `register_device_secure`
(lines 160-165 and 190-195). -/
structure RegResult where
  success : Bool
  device_id : Nat
  public_key_id : String
  message : String
deriving DecidableEq, Repr

/-- Rowid assigned by the sqlite AUTOINCREMENT primary key to a freshly
inserted `device_registry` row (`cursor.lastrowid`). -/
def next_rowid (registry : List DeviceRow) : Nat :=
  (registry.map (·.id)).foldr max 0 + 1

/-- Model of `register_device_secure` (secure_backend.py lines 121-202),
with sqlite storage available: validate the algorithm, look for an
existing row matching `public_key_id` OR `installation_id` OR
`device_fingerprint` (lines 141-147), and either bump that row's
`last_activity` and `is_active` and return its identity (lines 149-165),
or insert a fresh row (lines 167-195).  A raised `ValueError` is the
`Except.error` result (re-raised at line 200 after rollback). -/
def register_device_secure (env : Env) (rd : RegistrationData)
    (registry : List DeviceRow) : Except String RegResult × List DeviceRow :=
  if rd.public_key.algorithm ≠ "secp256k1" then
    (.error "Only secp256k1 algorithm is supported", registry)
  else
    match registry.find? (fun d =>
        d.public_key_id == rd.public_key.keyId ||
        d.installation_id == rd.installation_id ||
        d.device_fingerprint == rd.device_fingerprint) with
    | some existing_device =>
      let registry1 := registry.map (fun d =>
        if d.id == existing_device.id then
          { d with last_activity := env.nowIso, is_active := true }
        else d)
      (.ok ⟨true, existing_device.id, existing_device.public_key_id,
        "Device already registered (updated activity)"⟩, registry1)
    | none =>
      let new_id := next_rowid registry
      let row : DeviceRow :=
        ⟨new_id, rd.installation_id, rd.device_model, rd.os_name, rd.os_version,
          rd.public_key.keyBase64, rd.public_key.keyId, rd.public_key.fingerprint,
          rd.device_fingerprint, rd.registration_timestamp, env.nowIso, true⟩
      (.ok ⟨true, new_id, rd.public_key.keyId,
        "Device registered successfully with public key only"⟩, registry ++ [row])

/-- A row of the postgres `geocam_devices` table (database.py lines
50-63), restricted to the columns the claims touch. -/
structure PgDevice where
  id : Nat
  installation_id : String
  device_model : String
  os_name : Option String
  os_version : Option String
  geocam_sequence : Nat
  is_active : Bool
deriving DecidableEq, Repr

/-- Value of `SELECT COALESCE(MAX(geocam_sequence), 0) + 1` over a device
table. -/
def next_geocam_sequence_of (devices : List PgDevice) : Nat :=
  (devices.map (·.geocam_sequence)).foldr max 0 + 1

/-- Model of `get_next_geocam_sequence` (database.py lines 96-109).  The
argument is the outcome of the MAX query against storage: `Except.error`
models a raised storage exception, `Except.ok none` a missing row, and
`Except.ok (some v)` the fetched `next_sequence` value.  The source's
handler returns the default 1 on any exception (line 107). -/
def get_next_geocam_sequence (q : Except String (Option Nat)) : Nat :=
  match q with
  | .ok (some next_sequence) => next_sequence
  | .ok none => 1
  | .error _ => 1

/-- Model of `get_all_devices` (database.py lines 177-197).  The argument
is the outcome of the SELECT (rows already ordered by `geocam_sequence`
ascending by the database); the source's handler returns the default `[]`
on any exception (line 195). -/
def get_all_devices (q : Except String (List PgDevice)) : List PgDevice :=
  match q with
  | .ok devices => devices
  | .error _ => []

/-- Model of `register_device` (database.py lines 111-175) in the
sequential, storage-available case: if a row with this `installation_id`
exists, return its id and leave the table unchanged (lines 118-125, no
activity bump in this branch); otherwise compute
`geocam_sequence = COALESCE(MAX, 0) + 1` within the transaction and
insert, the SERIAL id being max + 1.  Returns the device id as the source
does. -/
def register_device (st : List PgDevice) (installation_id device_model : String)
    (os_name os_version : Option String) : Nat × List PgDevice :=
  match st.find? (fun d => d.installation_id == installation_id) with
  | some existing => (existing.id, st)
  | none =>
    let geocam_sequence := next_geocam_sequence_of st
    let id := (st.map (·.id)).foldr max 0 + 1
    (id, st ++ [⟨id, installation_id, device_model, os_name, os_version,
      geocam_sequence, true⟩])

/-- Outcome of one INSERT attempt inside the retry loop of
`register_device` (database.py lines 139-168): success returning an id; a
raised error whose text contains both "duplicate key value violates
unique constraint" and "geocam_sequence" (the conflict class tested at
line 157); or any other raised error. -/
inductive InsertOutcome
  | ok (id : Nat)
  | seqConflict
  | otherErr (msg : String)
deriving DecidableEq, Repr

/-- Errors surfaced by `register_device`: the duplicate-sequence error
re-raised once the retry bound is hit (line 166), or any other storage
error re-raised immediately (line 168). -/
inductive RegError
  | sequenceConflict
  | storage (msg : String)
deriving DecidableEq, Repr

/-- Instrumented trace of the insert loop: the surfaced result, the list
of INSERT attempts actually issued as (attempt index, geocam_sequence
used), and the number of conflict rollbacks (line 159). -/
structure RegTrace where
  result : Except RegError Nat
  inserts : List (Nat × Nat)
  rollbacks : Nat
deriving Repr

/-- One turn of `for attempt in range(max_retries)` (database.py lines
139-168).  `maxSeqAt k` is the `COALESCE(MAX(geocam_sequence), 0)` value
observed at the k-th sequence computation (k = 0 at line 128, k ≥ 1 at the
line 161 recomputes after a rollback); `outcome k` the INSERT outcome at
attempt k; `remaining` the attempts the range still allows.  On a
sequence conflict the loop rolls back, recomputes, and either retries or —
when `attempt == max_retries - 1` — re-raises the conflict (line 166); any
other error is re-raised at once (line 168). -/
def register_device_retryAux (maxSeqAt : Nat → Nat) (outcome : Nat → InsertOutcome) :
    Nat → Nat → Nat → RegTrace
  | 0, _, _ => ⟨.error .sequenceConflict, [], 0⟩
  | remaining + 1, attempt, seq =>
    match outcome attempt with
    | .ok id => ⟨.ok id, [(attempt, seq)], 0⟩
    | .otherErr m => ⟨.error (.storage m), [(attempt, seq)], 0⟩
    | .seqConflict =>
      let seq1 := maxSeqAt (attempt + 1) + 1
      if remaining = 0 then
        ⟨.error .sequenceConflict, [(attempt, seq)], 1⟩
      else
        let t := register_device_retryAux maxSeqAt outcome remaining (attempt + 1) seq1
        ⟨t.result, (attempt, seq) :: t.inserts, t.rollbacks + 1⟩

/-- The `max_retries` bound of database.py line 138. -/
def max_retries : Nat := 3

/-- Model of the insert phase of `register_device` (database.py lines
117-168) against abstract storage: `existing` is the result of the
line 119 idempotency lookup, and the INSERT/MAX interactions are the
oracles of `register_device_retryAux` (abstract because conflicts are
caused by concurrent writers outside the local state). -/
def register_device_retry (existing : Option Nat) (maxSeqAt : Nat → Nat)
    (outcome : Nat → InsertOutcome) : RegTrace :=
  match existing with
  | some id => ⟨.ok id, [], 0⟩
  | none => register_device_retryAux maxSeqAt outcome max_retries 0 (maxSeqAt 0 + 1)

/-- Python's `round` on a rational: round half to even (banker's
rounding), as used at secure_backend.py line 627. -/
def pyRoundInt (q : ℚ) : ℤ :=
  let f := ⌊q⌋
  let r := q - f
  if r < 1 / 2 then f
  else if r > 1 / 2 then f + 1
  else if f % 2 = 0 then f else f + 1

/-- Python's `round(x, 2)`. -/
def pyRound2 (q : ℚ) : ℚ := (pyRoundInt (q * 100) : ℚ) / 100

/-- The `stats` dictionary of `get_verification_stats`
(secure_backend.py lines 619-629), restricted to the aggregate fields the
claims touch. -/
structure Stats where
  total_verifications : Nat
  valid_verifications : Nat
  invalid_verifications : Nat
  success_rate : ℚ
deriving DecidableEq, Repr

/-- Model of `get_verification_stats` (secure_backend.py lines 591-633):
COUNT over `verification_logs`, COUNT with `signature_valid = 1`, and
`round((valid / total * 100), 2) if total > 0 else 0` (line 627). -/
def get_verification_stats (logs : List LogRow) : Stats :=
  let total_verifications := logs.length
  let valid_verifications := (logs.filter (·.signature_valid)).length
  { total_verifications := total_verifications
    valid_verifications := valid_verifications
    invalid_verifications := total_verifications - valid_verifications
    success_rate :=
      if total_verifications > 0 then
        pyRound2 ((valid_verifications : ℚ) / (total_verifications : ℚ) * 100)
      else 0 }

/-- Modelled from the spec: "success_rate is valid / total rounded to a
fixed precision, and is defined as 0 (not NaN) when total = 0" — the
success-rate value the claim asserts, for comparison with the one the
source computes. -/
def success_rate_spec (valid total : Nat) : ℚ :=
  if total = 0 then 0 else pyRound2 ((valid : ℚ) / (total : ℚ))

/-- The success-rate value the source actually computes, as a standalone
arithmetic function: valid / total expressed as a percentage, rounded to
two decimal places, 0 when total = 0. -/
def success_rate_amended (valid total : Nat) : ℚ :=
  if total = 0 then 0 else pyRound2 ((valid : ℚ) / (total : ℚ) * 100)

/-! Concrete fixtures used by witnesses and counterexamples. -/

/-- SHA-512 hex digest literal: 128 zero characters. -/
def hash128 : String := String.mk (List.replicate 128 '0')

/-- Demo environment: the primitive accepts every signature, the library is
available, and the hash oracle returns `hash128`. -/
def envDemo : Env :=
  { prim := fun _ _ _ => .ok true
    secp256k1_available := true
    now := 0
    nowIso := "2025-01-01T00:00:00"
    sha512hex := fun _ => hash128
    activity_update_ok := true }

/-- Demo environment whose secp256k1 primitive raises on every input. -/
def envExn : Env := { envDemo with prim := fun _ _ _ => .exn "bad point" }

/-- A well-formed 64-byte signature value. -/
def sig64 : Bytes := List.replicate 64 0

/-- A well-formed 33-byte compressed public key (prefix 0x02). -/
def pk33 : Bytes := 2 :: List.replicate 32 0

/-- A registered, active demo device with key id k1. -/
def deviceDemo : DeviceRow :=
  ⟨1, "inst-1", "PixelDemo", "Android", "14", .ok pk33, "k1", "fp-pub", "fp-dev",
    "2025-01-01T00:00:00", "2025-01-01T00:00:00", true⟩

/-- The demo device with its `is_active` flag cleared. -/
def deviceInactive : DeviceRow := { deviceDemo with is_active := false }

/-- A well-formed verification request targeting key id k1, no timestamp. -/
def reqDemo : VerifyRequest :=
  ⟨some (.ok [1, 2, 3]), some (.ok sig64), some "k1", none, "127.0.0.1", "agent"⟩

/-- A registration request whose `installation_id` matches `deviceDemo`. -/
def regDemo : RegistrationData :=
  ⟨"inst-1", "PixelDemo", "Android", "14",
    ⟨.ok pk33, "k1-new", "secp256k1", "fp-pub"⟩, "fp-dev-other", "2025-06-01T00:00:00"⟩

/-- A logged verification attempt with a valid signature. -/
def logValid : LogRow := ⟨"k1", "h", true, "t", "ip", "ua"⟩

/-- A logged verification attempt with an invalid signature. -/
def logInvalid : LogRow := ⟨"k1", "h", false, "t", "ip", "ua"⟩

/-! Helper lemmas shared by the claim proofs. -/

/-- Helper: a 33-byte key accepted by the prefix guard has first byte 2 or 3. -/
lemma head_two_or_three {pbs : Bytes} (h33 : pbs.length = 33)
    (hpre : pbs.get? 0 = some 2 ∨ pbs.get? 0 = some 3) :
    pbs[0] = 2 ∨ pbs[0] = 3 := by
  have hlt : 0 < pbs.length := by omega
  rcases hpre with h | h <;>
    rw [List.get?_eq_getElem?, List.getElem?_eq_getElem hlt] at h
  · exact Or.inl (Option.some.inj h)
  · exact Or.inr (Option.some.inj h)

/-- Helper: `verify_secp256k1_signature` never reads the
`activity_update_ok` field of the environment. -/
lemma verify_sig_env_activity (p : Bytes → Bytes → Bytes → CryptoOutcome) (a : Bool)
    (n : Int) (i : String) (s : Bytes → String) (b1 b2 : Bool)
    (sw : B64Wire) (dh : String) (pw : B64Wire) (t : Option TsWire) :
    verify_secp256k1_signature ⟨p, a, n, i, s, b1⟩ sw dh pw t
      = verify_secp256k1_signature ⟨p, a, n, i, s, b2⟩ sw dh pw t := rfl

/-- Helper: Python round is the identity on integer-valued rationals. -/
lemma pyRoundInt_intCast (n : ℤ) : pyRoundInt (n : ℚ) = n := by
  simp [pyRoundInt]

/-- Helper: Python round to two decimals is the identity on integers. -/
lemma pyRound2_int (n : ℤ) : pyRound2 (n : ℚ) = n := by
  rw [pyRound2, show ((n : ℚ) * 100) = (((n * 100 : ℤ)) : ℚ) by push_cast; ring,
    pyRoundInt_intCast]
  push_cast
  ring

/-- C1 (counterexample): a verification call with an unknown
`public_key_id` (empty registry) returns the 404 error and appends no
audit row at all, refuting the claim that every call appends exactly one
`VerificationAttempt` record. -/
theorem C1_counterexample :
    (verify_image_secure envDemo (some reqDemo) ⟨[], []⟩).2.verification_logs = [] ∧
    (verify_image_secure envDemo (some reqDemo) ⟨[], []⟩).1
      = .err "Device not found or inactive" 404 := ⟨rfl, rfl⟩

/-- C1 (amended): every verification call that passes field validation,
device lookup, and image decoding appends exactly one audit row to
`verification_logs`, regardless of the verification outcome — including
malformed signature, key, digest, or timestamp inputs, which still reach
the logging step as a failed verification result. -/
theorem C1_theorem (env : Env) (data : VerifyRequest) (st : BackendState)
    (sw iw : B64Wire) (pkid : String) (dev : DeviceRow) (ibs : Bytes)
    (hs : data.signature = some sw) (hp : data.public_key_id = some pkid)
    (hd : get_device_by_public_key_id st.device_registry pkid = some dev)
    (hi : data.image_data = some iw) (hdec : b64decode iw = some ibs)
    (hsz : ¬ ibs.length > 50 * 1024 * 1024) :
    (verify_image_secure env (some data) st).2.verification_logs
      = st.verification_logs ++
        [⟨pkid, env.sha512hex ibs,
          (verify_secp256k1_signature env sw (env.sha512hex ibs) dev.public_key_base64
            data.timestamp).valid,
          env.nowIso, data.client_ip, data.user_agent⟩] := by
  simp [verify_image_secure, log_verification_attempt, hs, hp, hd, hi, hdec, hsz]

set_option maxRecDepth 8000 in
/-- C1 (witness): the amended statement at a concrete request against a
one-device registry — the empty log gains exactly one row. -/
theorem C1_witness :
    (verify_image_secure envDemo (some reqDemo) ⟨[deviceDemo], []⟩).2.verification_logs
      = [] ++ [⟨"k1", hash128, true, "2025-01-01T00:00:00", "127.0.0.1", "agent"⟩] := by
  have h := C1_theorem envDemo reqDemo ⟨[deviceDemo], []⟩ (.ok sig64) (.ok [1, 2, 3]) "k1"
    deviceDemo [1, 2, 3] rfl rfl (by decide) rfl rfl (by decide)
  exact h

set_option maxRecDepth 8000 in
/-- C2 (counterexample): with an absent claimed timestamp the replay
check is skipped (its flag stays false) and verification proceeds to the
cryptographic stage and succeeds, refuting the claim that an absent
timestamp is rejected with a timestamp error. -/
theorem C2_counterexample :
    verify_secp256k1_signature envDemo (.ok sig64) hash128 (.ok pk33) none
      = ⟨true, none, ⟨true, true, true, false, true⟩⟩ := by decide

/-- C2 (amended): a present-but-unparsable claimed timestamp is rejected
with the timestamp-format error, and a parsable timestamp more than 300
seconds from the current time is rejected with the replay error (the
comparison is an absolute difference, so the guard is symmetric); an
absent timestamp, however, skips the replay check entirely. -/
theorem C2_theorem (env : Env) (sbs pbs hb : Bytes) (dh : String)
    (h64 : sbs.length = 64) (h33 : pbs.length = 33)
    (hpre : pbs.get? 0 = some 2 ∨ pbs.get? 0 = some 3)
    (h128 : dh.length = 128) (hhex : fromhex dh = some hb) :
    verify_secp256k1_signature env (.ok sbs) dh (.ok pbs) (some .unparsable)
      = ⟨false, some "Invalid timestamp format", ⟨true, true, true, false, false⟩⟩ ∧
    (∀ t : Int, 300 < (env.now - t).natAbs →
      verify_secp256k1_signature env (.ok sbs) dh (.ok pbs) (some (.parses t))
        = ⟨false, some "Signature timestamp too old (replay attack protection)",
            ⟨true, true, true, false, false⟩⟩) := by
  have h0 := head_two_or_three h33 hpre
  constructor
  · simp [verify_secp256k1_signature, b64decode, h64, h33, hpre, h128, hhex, noChecks]
    tauto
  · intro t ht
    simp [verify_secp256k1_signature, b64decode, h64, h33, hpre, h128, hhex, noChecks, ht]
    tauto

set_option maxRecDepth 8000 in
/-- C2 (witness): the amended statement at concrete inputs — a timestamp
301 seconds old is rejected as stale and an unparsable one as malformed. -/
theorem C2_witness :
    verify_secp256k1_signature envDemo (.ok sig64) hash128 (.ok pk33) (some (.parses 301))
      = ⟨false, some "Signature timestamp too old (replay attack protection)",
          ⟨true, true, true, false, false⟩⟩ ∧
    verify_secp256k1_signature envDemo (.ok sig64) hash128 (.ok pk33) (some .unparsable)
      = ⟨false, some "Invalid timestamp format", ⟨true, true, true, false, false⟩⟩ := by
  have h := C2_theorem envDemo sig64 pk33 (List.replicate 64 0) hash128
    (by decide) (by decide) (by decide) (by decide) (by decide)
  exact ⟨h.2 301 (by decide), h.1⟩

/-- C3: the registration insert loop issues at most 3 INSERT attempts,
every attempt k uses the freshly recomputed sequence max + 1 observed at
recompute k, three consecutive duplicate-sequence conflicts roll back
three times and surface the conflict error, a conflict followed by a
successful insert retries exactly once more and succeeds, and a storage
error of any other class is surfaced immediately after a single attempt
with no retry. -/
theorem C3_theorem (existing : Option Nat) (maxSeqAt : Nat → Nat)
    (outcome : Nat → InsertOutcome) :
    (register_device_retry existing maxSeqAt outcome).inserts.length ≤ 3 ∧
    (∀ k s, (k, s) ∈ (register_device_retry existing maxSeqAt outcome).inserts →
      s = maxSeqAt k + 1) ∧
    (existing = none → outcome 0 = .seqConflict → outcome 1 = .seqConflict →
      outcome 2 = .seqConflict →
      (register_device_retry existing maxSeqAt outcome).result = .error .sequenceConflict ∧
      (register_device_retry existing maxSeqAt outcome).inserts
        = [(0, maxSeqAt 0 + 1), (1, maxSeqAt 1 + 1), (2, maxSeqAt 2 + 1)] ∧
      (register_device_retry existing maxSeqAt outcome).rollbacks = 3) ∧
    (∀ id1, existing = none → outcome 0 = .seqConflict → outcome 1 = .ok id1 →
      (register_device_retry existing maxSeqAt outcome).result = .ok id1 ∧
      (register_device_retry existing maxSeqAt outcome).inserts
        = [(0, maxSeqAt 0 + 1), (1, maxSeqAt 1 + 1)]) ∧
    (∀ m, existing = none → outcome 0 = .otherErr m →
      (register_device_retry existing maxSeqAt outcome).result = .error (.storage m) ∧
      (register_device_retry existing maxSeqAt outcome).inserts = [(0, maxSeqAt 0 + 1)]) := by
  rcases existing with _ | id0
  · rcases h0 : outcome 0 with id | _ | m <;>
      rcases h1 : outcome 1 with id1 | _ | m1 <;>
      rcases h2 : outcome 2 with id2 | _ | m2 <;>
      simp_all [register_device_retry, register_device_retryAux, max_retries] <;>
      aesop
  · simp [register_device_retry]

/-- C3 (witness): the three retry scenarios at concrete oracles — full
conflict exhaustion, conflict then success, and an immediate non-conflict
storage error. -/
theorem C3_witness :
    (register_device_retry none (fun k => 10 + k) (fun _ => .seqConflict)).result
      = .error .sequenceConflict ∧
    (register_device_retry none (fun k => 10 + k) (fun _ => .seqConflict)).inserts
      = [(0, 11), (1, 12), (2, 13)] ∧
    (register_device_retry none (fun k => 10 + k) (fun _ => .seqConflict)).rollbacks = 3 ∧
    (register_device_retry none (fun k => 10 + k)
        (fun k => if k = 0 then .seqConflict else .ok 7)).result = .ok 7 ∧
    (register_device_retry none (fun k => 10 + k)
        (fun k => if k = 0 then .seqConflict else .ok 7)).inserts = [(0, 11), (1, 12)] ∧
    (register_device_retry none (fun _ => 0) (fun _ => .otherErr "db down")).result
      = .error (.storage "db down") ∧
    (register_device_retry none (fun _ => 0) (fun _ => .otherErr "db down")).inserts
      = [(0, 1)] := by
  have hA := (C3_theorem none (fun k => 10 + k) (fun _ => .seqConflict)).2.2.1
    rfl rfl rfl rfl
  have hB := (C3_theorem none (fun k => 10 + k)
    (fun k => if k = 0 then .seqConflict else .ok 7)).2.2.2.1 7 rfl rfl rfl
  have hC := (C3_theorem none (fun _ => 0) (fun _ => .otherErr "db down")).2.2.2.2
    "db down" rfl rfl
  exact ⟨hA.1, hA.2.1, hA.2.2, hB.1, hB.2, hC.1, hC.2⟩

/-- C4: when a record matching `public_key_id` OR `installation_id` OR
`device_fingerprint` already exists, registration returns success with the
existing record's identity and the already-registered message, creates no
new record (the table length is unchanged), sets the matched record's
`last_activity` to now and `is_active` to true, and never errors; and in
the sequence-carrying registry, registering the same `installation_id`
twice returns the same device id both times, leaves the table unchanged,
and that record keeps the sequence assigned at first registration. -/
theorem C4_theorem (env : Env) (rd : RegistrationData) (registry : List DeviceRow)
    (d : DeviceRow)
    (halg : rd.public_key.algorithm = "secp256k1")
    (hfind : registry.find? (fun e =>
        e.public_key_id == rd.public_key.keyId ||
        e.installation_id == rd.installation_id ||
        e.device_fingerprint == rd.device_fingerprint) = some d) :
    (register_device_secure env rd registry).1
      = .ok ⟨true, d.id, d.public_key_id, "Device already registered (updated activity)"⟩ ∧
    (register_device_secure env rd registry).2.length = registry.length ∧
    (∀ e ∈ (register_device_secure env rd registry).2, e.id = d.id →
      e.last_activity = env.nowIso ∧ e.is_active = true) ∧
    (∀ (st : List PgDevice) (inst dm dm2 : String) (osn osv osn2 osv2 : Option String),
      st.find? (fun e => e.installation_id == inst) = none →
      (register_device (register_device st inst dm osn osv).2 inst dm2 osn2 osv2).1
        = (register_device st inst dm osn osv).1 ∧
      (register_device (register_device st inst dm osn osv).2 inst dm2 osn2 osv2).2
        = (register_device st inst dm osn osv).2 ∧
      (∃ row, (register_device st inst dm osn osv).2.find?
          (fun e => e.installation_id == inst) = some row ∧
        row.geocam_sequence = next_geocam_sequence_of st ∧
        row.id = (register_device st inst dm osn osv).1)) := by
  have hmain : register_device_secure env rd registry
      = (.ok ⟨true, d.id, d.public_key_id, "Device already registered (updated activity)"⟩,
          registry.map (fun e => if e.id == d.id then
            { e with last_activity := env.nowIso, is_active := true } else e)) := by
    simp [register_device_secure, halg, hfind]
  refine ⟨by rw [hmain], by rw [hmain]; simp, ?_, ?_⟩
  · rw [hmain]
    intro e he hid
    rcases List.mem_map.mp he with ⟨e0, he0, rfl⟩
    by_cases h : e0.id == d.id
    · simp [h]
    · simp only [h, if_neg, Bool.false_eq_true, if_false] at hid
      exact absurd (beq_iff_eq.mpr hid) h
  · intro st inst dm dm2 osn osv osn2 osv2 hnone
    have h1 : register_device st inst dm osn osv
        = ((st.map (fun e => e.id)).foldr max 0 + 1,
            st ++ [⟨(st.map (fun e => e.id)).foldr max 0 + 1, inst, dm, osn, osv,
              next_geocam_sequence_of st, true⟩]) := by
      simp [register_device, hnone]
    have hfind2 : (st ++ [(⟨(st.map (fun e => e.id)).foldr max 0 + 1, inst, dm, osn, osv,
          next_geocam_sequence_of st, true⟩ : PgDevice)]).find?
        (fun e => e.installation_id == inst)
        = some ⟨(st.map (fun e => e.id)).foldr max 0 + 1, inst, dm, osn, osv,
            next_geocam_sequence_of st, true⟩ := by
      rw [List.find?_append, hnone]
      simp [List.find?]
    have h2 : register_device (register_device st inst dm osn osv).2 inst dm2 osn2 osv2
        = ((st.map (fun e => e.id)).foldr max 0 + 1,
            (register_device st inst dm osn osv).2) := by
      rw [h1]
      simp [register_device, hfind2]
    refine ⟨by rw [h2, h1], by rw [h2],
      ⟨⟨(st.map (fun e => e.id)).foldr max 0 + 1, inst, dm, osn, osv,
          next_geocam_sequence_of st, true⟩, ?_, rfl, ?_⟩⟩
    · rw [h1]
      exact hfind2
    · rw [h1]

/-- C4 (witness): re-registering the demo device (matched by
`installation_id`) returns the existing identity without growing the
table, and registering the same `installation_id` twice in the
sequence-carrying registry yields the same id and state. -/
theorem C4_witness :
    (register_device_secure envDemo regDemo [deviceDemo]).1
      = .ok ⟨true, 1, "k1", "Device already registered (updated activity)"⟩ ∧
    (register_device_secure envDemo regDemo [deviceDemo]).2.length = 1 ∧
    (register_device (register_device [] "i1" "m1" none none).2 "i1" "m2" none none).1
      = (register_device [] "i1" "m1" none none).1 ∧
    (register_device (register_device [] "i1" "m1" none none).2 "i1" "m2" none none).2
      = (register_device [] "i1" "m1" none none).2 := by
  have h := C4_theorem envDemo regDemo [deviceDemo] deviceDemo rfl (by decide)
  have h2 := h.2.2.2 [] "i1" "m1" "m2" none none none none rfl
  exact ⟨h.1, h.2.1, h2.1, h2.2.1⟩

/-- C5: the verification pipeline short-circuits in the fixed order
lookup, signature decode, stored-key decode, digest decode, replay check,
cryptographic verify — each failing stage yields its own error string
with every later stage flag still false, and every right-hand side is a
constant independent of the environment (hence of the cryptographic
primitive), so no later stage runs; in particular an unknown
`public_key_id` returns the 404 response with the state unchanged and no
cryptographic check performed. -/
theorem C5_theorem :
    (∀ env dh pw t, verify_secp256k1_signature env .bad dh pw t
      = ⟨false, some "Invalid signature encoding", noChecks⟩) ∧
    (∀ env dh pw t (bs : Bytes), bs.length ≠ 64 →
      verify_secp256k1_signature env (.ok bs) dh pw t
        = ⟨false, some "Invalid signature length", noChecks⟩) ∧
    (∀ env dh t (sbs : Bytes), sbs.length = 64 →
      verify_secp256k1_signature env (.ok sbs) dh .bad t
        = ⟨false, some "Invalid public key encoding", ⟨true, false, false, false, false⟩⟩) ∧
    (∀ env dh t (sbs pbs : Bytes), sbs.length = 64 → pbs.length ≠ 33 →
      verify_secp256k1_signature env (.ok sbs) dh (.ok pbs) t
        = ⟨false, some "Invalid public key length", ⟨true, false, false, false, false⟩⟩) ∧
    (∀ env dh t (sbs pbs : Bytes), sbs.length = 64 → pbs.length = 33 →
      ¬ (pbs.get? 0 = some 2 ∨ pbs.get? 0 = some 3) →
      verify_secp256k1_signature env (.ok sbs) dh (.ok pbs) t
        = ⟨false, some "Invalid compressed public key format",
            ⟨true, false, false, false, false⟩⟩) ∧
    (∀ env dh t (sbs pbs : Bytes), sbs.length = 64 → pbs.length = 33 →
      (pbs.get? 0 = some 2 ∨ pbs.get? 0 = some 3) → dh.length ≠ 128 →
      verify_secp256k1_signature env (.ok sbs) dh (.ok pbs) t
        = ⟨false, some "Invalid hash length", ⟨true, true, false, false, false⟩⟩) ∧
    (∀ env dh t (sbs pbs : Bytes), sbs.length = 64 → pbs.length = 33 →
      (pbs.get? 0 = some 2 ∨ pbs.get? 0 = some 3) → dh.length = 128 → fromhex dh = none →
      verify_secp256k1_signature env (.ok sbs) dh (.ok pbs) t
        = ⟨false, some "Invalid hash format", ⟨true, true, false, false, false⟩⟩) ∧
    (∀ env dh (sbs pbs hb : Bytes), sbs.length = 64 → pbs.length = 33 →
      (pbs.get? 0 = some 2 ∨ pbs.get? 0 = some 3) → dh.length = 128 → fromhex dh = some hb →
      verify_secp256k1_signature env (.ok sbs) dh (.ok pbs) (some .unparsable)
        = ⟨false, some "Invalid timestamp format", ⟨true, true, true, false, false⟩⟩) ∧
    (∀ env req st (sw : B64Wire) (pkid : String),
      req.signature = some sw → req.public_key_id = some pkid →
      get_device_by_public_key_id st.device_registry pkid = none →
      verify_image_secure env (some req) st = (.err "Device not found or inactive" 404, st)) := by
  refine ⟨?_, ?_, ?_, ?_, ?_, ?_, ?_, ?_, ?_⟩
  · intro env dh pw t
    simp [verify_secp256k1_signature, b64decode, noChecks]
  · intro env dh pw t bs h
    simp [verify_secp256k1_signature, b64decode, h, noChecks]
  · intro env dh t sbs h64
    simp [verify_secp256k1_signature, b64decode, h64, noChecks]
  · intro env dh t sbs pbs h64 h33
    simp [verify_secp256k1_signature, b64decode, h64, h33, noChecks]
  · intro env dh t sbs pbs h64 h33 hpre
    have h2 : ¬ pbs.get? 0 = some 2 := fun h => hpre (Or.inl h)
    have h3 : ¬ pbs.get? 0 = some 3 := fun h => hpre (Or.inr h)
    have hlt : 0 < pbs.length := by omega
    rw [List.get?_eq_getElem?, List.getElem?_eq_getElem hlt] at h2 h3
    simp only [Option.some.injEq] at h2 h3
    simp [verify_secp256k1_signature, b64decode, h64, h33, h2, h3, noChecks]
  · intro env dh t sbs pbs h64 h33 hpre h128
    rcases head_two_or_three h33 hpre with h | h <;>
      simp [verify_secp256k1_signature, b64decode, h64, h33, h128, h, noChecks]
  · intro env dh t sbs pbs h64 h33 hpre h128 hhex
    rcases head_two_or_three h33 hpre with h | h <;>
      simp [verify_secp256k1_signature, b64decode, h64, h33, h128, hhex, h, noChecks]
  · intro env dh sbs pbs hb h64 h33 hpre h128 hhex
    rcases head_two_or_three h33 hpre with h | h <;>
      simp [verify_secp256k1_signature, b64decode, h64, h33, h128, hhex, h, noChecks]
  · intro env req st sw pkid hs hp hd
    simp [verify_image_secure, hs, hp, hd]

set_option maxRecDepth 8000 in
/-- C5 (witness): each stage failure exercised at a concrete input, plus
the unknown-key 404 with unchanged state. -/
theorem C5_witness :
    verify_secp256k1_signature envDemo .bad "abcd" (.ok pk33) none
      = ⟨false, some "Invalid signature encoding", noChecks⟩ ∧
    verify_secp256k1_signature envDemo (.ok [0]) "abcd" (.ok pk33) none
      = ⟨false, some "Invalid signature length", noChecks⟩ ∧
    verify_secp256k1_signature envDemo (.ok sig64) "abcd" .bad none
      = ⟨false, some "Invalid public key encoding", ⟨true, false, false, false, false⟩⟩ ∧
    verify_secp256k1_signature envDemo (.ok sig64) "abcd" (.ok [2]) none
      = ⟨false, some "Invalid public key length", ⟨true, false, false, false, false⟩⟩ ∧
    verify_secp256k1_signature envDemo (.ok sig64) "abcd" (.ok (5 :: List.replicate 32 0)) none
      = ⟨false, some "Invalid compressed public key format",
          ⟨true, false, false, false, false⟩⟩ ∧
    verify_secp256k1_signature envDemo (.ok sig64) "abcd" (.ok pk33) none
      = ⟨false, some "Invalid hash length", ⟨true, true, false, false, false⟩⟩ ∧
    verify_secp256k1_signature envDemo (.ok sig64) (String.mk (List.replicate 128 'z'))
        (.ok pk33) none
      = ⟨false, some "Invalid hash format", ⟨true, true, false, false, false⟩⟩ ∧
    verify_secp256k1_signature envDemo (.ok sig64) hash128 (.ok pk33) (some .unparsable)
      = ⟨false, some "Invalid timestamp format", ⟨true, true, true, false, false⟩⟩ ∧
    verify_image_secure envDemo (some reqDemo) ⟨[], []⟩
      = (.err "Device not found or inactive" 404, ⟨[], []⟩) := by
  refine ⟨C5_theorem.1 envDemo "abcd" (.ok pk33) none,
    C5_theorem.2.1 envDemo "abcd" (.ok pk33) none [0] (by decide),
    C5_theorem.2.2.1 envDemo "abcd" none sig64 (by decide),
    C5_theorem.2.2.2.1 envDemo "abcd" none sig64 [2] (by decide) (by decide),
    C5_theorem.2.2.2.2.1 envDemo "abcd" none sig64 (5 :: List.replicate 32 0)
      (by decide) (by decide) (by decide),
    C5_theorem.2.2.2.2.2.1 envDemo "abcd" none sig64 pk33 (by decide) (by decide)
      (Or.inl (by decide)) (by decide),
    C5_theorem.2.2.2.2.2.2.1 envDemo (String.mk (List.replicate 128 'z')) none sig64 pk33
      (by decide) (by decide) (Or.inl (by decide)) (by decide) (by decide),
    C5_theorem.2.2.2.2.2.2.2.1 envDemo hash128 sig64 pk33 (List.replicate 64 0)
      (by decide) (by decide) (Or.inl (by decide)) (by decide) (by decide),
    C5_theorem.2.2.2.2.2.2.2.2 envDemo reqDemo ⟨[], []⟩ (.ok sig64) "k1" rfl rfl (by decide)⟩

/-- C6: the key-material format checks accept exactly the specified
shapes — a decoded signature whose length is not 64 bytes, a decoded
public key whose length is not 33 bytes or whose first byte is not 2 or
3, and a digest string whose length is not 128 characters are each
rejected with their own specific error classification (the functions are
total, so no rejection is a crash). -/
theorem C6_theorem :
    (∀ env dh pw t (bs : Bytes), bs.length ≠ 64 →
      verify_secp256k1_signature env (.ok bs) dh pw t
        = ⟨false, some "Invalid signature length", noChecks⟩) ∧
    (∀ env dh t (sbs pbs : Bytes), sbs.length = 64 → pbs.length ≠ 33 →
      verify_secp256k1_signature env (.ok sbs) dh (.ok pbs) t
        = ⟨false, some "Invalid public key length", ⟨true, false, false, false, false⟩⟩) ∧
    (∀ env dh t (sbs pbs : Bytes), sbs.length = 64 → pbs.length = 33 →
      ¬ (pbs.get? 0 = some 2 ∨ pbs.get? 0 = some 3) →
      verify_secp256k1_signature env (.ok sbs) dh (.ok pbs) t
        = ⟨false, some "Invalid compressed public key format",
            ⟨true, false, false, false, false⟩⟩) ∧
    (∀ env dh t (sbs pbs : Bytes), sbs.length = 64 → pbs.length = 33 →
      (pbs.get? 0 = some 2 ∨ pbs.get? 0 = some 3) → dh.length ≠ 128 →
      verify_secp256k1_signature env (.ok sbs) dh (.ok pbs) t
        = ⟨false, some "Invalid hash length", ⟨true, true, false, false, false⟩⟩) := by
  refine ⟨?_, ?_, ?_, ?_⟩
  · intro env dh pw t bs h
    simp [verify_secp256k1_signature, b64decode, h, noChecks]
  · intro env dh t sbs pbs h64 h33
    simp [verify_secp256k1_signature, b64decode, h64, h33, noChecks]
  · intro env dh t sbs pbs h64 h33 hpre
    have h2 : ¬ pbs.get? 0 = some 2 := fun h => hpre (Or.inl h)
    have h3 : ¬ pbs.get? 0 = some 3 := fun h => hpre (Or.inr h)
    have hlt : 0 < pbs.length := by omega
    rw [List.get?_eq_getElem?, List.getElem?_eq_getElem hlt] at h2 h3
    simp only [Option.some.injEq] at h2 h3
    simp [verify_secp256k1_signature, b64decode, h64, h33, h2, h3, noChecks]
  · intro env dh t sbs pbs h64 h33 hpre h128
    rcases head_two_or_three h33 hpre with h | h <;>
      simp [verify_secp256k1_signature, b64decode, h64, h33, h128, h, noChecks]

set_option maxRecDepth 8000 in
/-- C6 (witness): each format rejection exercised at a concrete input. -/
theorem C6_witness :
    verify_secp256k1_signature envDemo (.ok [0]) hash128 (.ok pk33) none
      = ⟨false, some "Invalid signature length", noChecks⟩ ∧
    verify_secp256k1_signature envDemo (.ok sig64) hash128 (.ok [2]) none
      = ⟨false, some "Invalid public key length", ⟨true, false, false, false, false⟩⟩ ∧
    verify_secp256k1_signature envDemo (.ok sig64) hash128 (.ok (5 :: List.replicate 32 0)) none
      = ⟨false, some "Invalid compressed public key format",
          ⟨true, false, false, false, false⟩⟩ ∧
    verify_secp256k1_signature envDemo (.ok sig64) "abcd" (.ok pk33) none
      = ⟨false, some "Invalid hash length", ⟨true, true, false, false, false⟩⟩ := by
  refine ⟨C6_theorem.1 envDemo hash128 (.ok pk33) none [0] (by decide),
    C6_theorem.2.1 envDemo hash128 none sig64 [2] (by decide) (by decide),
    C6_theorem.2.2.1 envDemo hash128 none sig64 (5 :: List.replicate 32 0)
      (by decide) (by decide) (by decide),
    C6_theorem.2.2.2 envDemo "abcd" none sig64 pk33 (by decide) (by decide)
      (Or.inl (by decide)) (by decide)⟩

/-- C7: when the underlying secp256k1 primitive raises on an input that
passed all format checks, the exception is caught and converted into a
not-verified result carrying the cryptographic-failure classification —
the verifier is a total function, so no exception reaches the caller. -/
theorem C7_theorem (env : Env) (sbs pbs hb : Bytes) (dh : String) (m : String)
    (ts : Option TsWire)
    (h64 : sbs.length = 64) (h33 : pbs.length = 33)
    (hpre : pbs.get? 0 = some 2 ∨ pbs.get? 0 = some 3)
    (h128 : dh.length = 128) (hhex : fromhex dh = some hb)
    (hts : ts = none ∨ ∃ t, ts = some (.parses t) ∧ (env.now - t).natAbs ≤ 300)
    (havail : env.secp256k1_available = true)
    (hexn : env.prim pbs sbs hb = .exn m) :
    (verify_secp256k1_signature env (.ok sbs) dh (.ok pbs) ts).valid = false ∧
    (verify_secp256k1_signature env (.ok sbs) dh (.ok pbs) ts).error
      = some ("Cryptographic verification failed: " ++ m) := by
  have h0 := head_two_or_three h33 hpre
  rcases hts with rfl | ⟨t, rfl, hwin⟩
  · rcases h0 with h | h <;>
      refine ⟨?_, ?_⟩ <;>
      simp [verify_secp256k1_signature, cryptoCheck, b64decode, h64, h33, h128, hhex,
        havail, hexn, h, noChecks]
  · have hnw : ¬ (env.now - t).natAbs > 300 := by omega
    rcases h0 with h | h <;>
      refine ⟨?_, ?_⟩ <;>
      simp [verify_secp256k1_signature, cryptoCheck, b64decode, h64, h33, h128, hhex,
        havail, hexn, h, hnw, noChecks]

set_option maxRecDepth 8000 in
/-- C7 (witness): a primitive that raises on every input yields the
converted failure result at a concrete well-formed input. -/
theorem C7_witness :
    (verify_secp256k1_signature envExn (.ok sig64) hash128 (.ok pk33) none).valid = false ∧
    (verify_secp256k1_signature envExn (.ok sig64) hash128 (.ok pk33) none).error
      = some ("Cryptographic verification failed: " ++ "bad point") :=
  C7_theorem envExn sig64 pk33 (List.replicate 64 0) hash128 "bad point" none
    (by decide) (by decide) (by decide) (by decide) (by decide)
    (Or.inl rfl) (by decide) (by decide)

/-- C8 (counterexample): on a log of one valid and one invalid attempt
the code computes success_rate 50 (a percentage), while the claimed
valid-divided-by-total formula yields one half — the two differ. -/
theorem C8_counterexample :
    (get_verification_stats [logValid, logInvalid]).success_rate = 50 ∧
    success_rate_spec 1 2 = 1 / 2 ∧ ((50 : ℚ) ≠ 1 / 2) := by
  refine ⟨?_, ?_, by norm_num⟩
  · have h : (get_verification_stats [logValid, logInvalid]).success_rate
        = pyRound2 (((1 : Nat) : ℚ) / ((2 : Nat) : ℚ) * 100) := rfl
    rw [h, show (((1 : Nat) : ℚ) / ((2 : Nat) : ℚ) * 100) = ((50 : ℤ) : ℚ) by
      push_cast; norm_num, pyRound2_int]
    norm_num
  · have h : success_rate_spec 1 2 = pyRound2 (((1 : Nat) : ℚ) / ((2 : Nat) : ℚ)) := by
      simp [success_rate_spec]
    rw [h, pyRound2, show (((1 : Nat) : ℚ) / ((2 : Nat) : ℚ) * 100) = ((50 : ℤ) : ℚ) by
      push_cast; norm_num, pyRoundInt_intCast]
    norm_num

/-- C8 (amended): Stats computes success_rate as valid divided by total
expressed as a percentage (multiplied by 100) and rounded to two decimal
places, where valid is the count of attempts with a valid signature and
total the count of all attempts, and returns success_rate 0 (not an
error, not NaN) when the total is 0. -/
theorem C8_theorem (logs : List LogRow) :
    (get_verification_stats logs).success_rate
      = success_rate_amended (logs.countP (·.signature_valid)) logs.length ∧
    (get_verification_stats []).success_rate = 0 := by
  constructor
  · unfold get_verification_stats success_rate_amended
    rcases Nat.eq_zero_or_pos logs.length with h | h
    · simp [h]
    · simp [h, h.ne', List.countP_eq_length_filter]
  · rfl

/-- C9 (counterexample): a storage exception makes the sequence helper
return the default 1 and the device-list helper return the default empty
list — both swallow the error instead of surfacing it. -/
theorem C9_counterexample :
    get_next_geocam_sequence (.error "connection refused") = 1 ∧
    get_all_devices (.error "connection refused") = ([] : List PgDevice) := ⟨rfl, rfl⟩

/-- C9 (amended): a non-conflict storage error in the registration insert
is surfaced to the caller, and a failing `last_activity` bump after a
successful verification never changes the verification response or the
audit log; but `get_next_geocam_sequence` and `get_all_devices` swallow
storage errors, returning the defaults 1 and the empty list. -/
theorem C9_theorem :
    (∀ (m : String) (maxSeqAt : Nat → Nat) (outcome : Nat → InsertOutcome),
      outcome 0 = .otherErr m →
      (register_device_retry none maxSeqAt outcome).result = .error (.storage m)) ∧
    (∀ (p : Bytes → Bytes → Bytes → CryptoOutcome) (a : Bool) (n : Int) (i : String)
      (s : Bytes → String) (b1 b2 : Bool) (req : Option VerifyRequest) (st : BackendState),
      (verify_image_secure ⟨p, a, n, i, s, b1⟩ req st).1
        = (verify_image_secure ⟨p, a, n, i, s, b2⟩ req st).1 ∧
      (verify_image_secure ⟨p, a, n, i, s, b1⟩ req st).2.verification_logs
        = (verify_image_secure ⟨p, a, n, i, s, b2⟩ req st).2.verification_logs) ∧
    (∀ m : String, get_next_geocam_sequence (.error m) = 1) ∧
    (∀ m : String, get_all_devices (.error m) = ([] : List PgDevice)) := by
  refine ⟨?_, ?_, fun _ => rfl, fun _ => rfl⟩
  · intro m maxSeqAt outcome h
    simp [register_device_retry, register_device_retryAux, max_retries, h]
  · intro p a n i s b1 b2 req st
    rcases req with _ | data
    · exact ⟨rfl, rfl⟩
    · rcases hs : data.signature with _ | sw
      · simp [verify_image_secure, hs]
      · rcases hp : data.public_key_id with _ | pk
        · simp [verify_image_secure, hs, hp]
        · rcases hd : get_device_by_public_key_id st.device_registry pk with _ | dev
          · simp [verify_image_secure, hs, hp, hd]
          · rcases hi : data.image_data with _ | iw
            · simp [verify_image_secure, hs, hp, hd, hi]
            · rcases hb : b64decode iw with _ | ibs
              · simp [verify_image_secure, hs, hp, hd, hi, hb]
              · by_cases hsz : ibs.length > 50 * 1024 * 1024 <;>
                  simp [verify_image_secure, hs, hp, hd, hi, hb, hsz,
                    log_verification_attempt, verify_sig_env_activity p a n i s b1 b2]

/-- C9 (witness): the amended statement at concrete inputs — an
immediately surfaced insert error, identical responses whether or not the
activity bump succeeds, and the two swallowed defaults. -/
theorem C9_witness :
    (register_device_retry none (fun _ => 0) (fun _ => .otherErr "db down")).result
      = .error (.storage "db down") ∧
    (verify_image_secure ⟨fun _ _ _ => .ok true, true, 0, "2025-01-01T00:00:00",
        fun _ => hash128, false⟩ (some reqDemo) ⟨[deviceDemo], []⟩).1
      = (verify_image_secure ⟨fun _ _ _ => .ok true, true, 0, "2025-01-01T00:00:00",
          fun _ => hash128, true⟩ (some reqDemo) ⟨[deviceDemo], []⟩).1 ∧
    get_next_geocam_sequence (.error "timeout") = 1 ∧
    get_all_devices (.error "timeout") = ([] : List PgDevice) :=
  ⟨C9_theorem.1 "db down" (fun _ => 0) (fun _ => .otherErr "db down") rfl,
    (C9_theorem.2.1 (fun _ _ _ => .ok true) true 0 "2025-01-01T00:00:00"
      (fun _ => hash128) false true (some reqDemo) ⟨[deviceDemo], []⟩).1,
    C9_theorem.2.2.1 "timeout", C9_theorem.2.2.2 "timeout"⟩

/-- C10: when every stored record carrying the looked-up `public_key_id`
has `is_active` false (so such a record exists but is deactivated), the
lookup returns none, and a verification request for that key id gets the
same not-found 404 response with unchanged state that an unknown key id
gets. -/
theorem C10_theorem (registry : List DeviceRow) (pkid : String)
    (hex : ∃ d ∈ registry, d.public_key_id = pkid)
    (hall : ∀ d ∈ registry, d.public_key_id = pkid → d.is_active = false) :
    get_device_by_public_key_id registry pkid = none ∧
    (∀ env req st, st.device_registry = registry →
      (∃ sw, req.signature = some sw) → req.public_key_id = some pkid →
      verify_image_secure env (some req) st
        = (.err "Device not found or inactive" 404, st)) := by
  have hnone : get_device_by_public_key_id registry pkid = none := by
    apply List.find?_eq_none.mpr
    intro d hd
    simp only [Bool.and_eq_true, beq_iff_eq, not_and]
    intro h1 h2
    rw [hall d hd h1] at h2
    exact Bool.false_ne_true h2
  refine ⟨hnone, ?_⟩
  intro env req st hst hsig hp
  rcases hsig with ⟨sw, hs⟩
  subst hst
  simp [verify_image_secure, hs, hp, hnone]

/-- C10 (witness): a registry holding only the deactivated demo device
behaves exactly like an empty registry for key id k1. -/
theorem C10_witness :
    get_device_by_public_key_id [deviceInactive] "k1" = none ∧
    verify_image_secure envDemo (some reqDemo) ⟨[deviceInactive], []⟩
      = (.err "Device not found or inactive" 404, ⟨[deviceInactive], []⟩) := by
  have h := C10_theorem [deviceInactive] "k1"
    ⟨deviceInactive, List.mem_singleton.mpr rfl, by decide⟩ (by decide)
  exact ⟨h.1, h.2 envDemo reqDemo ⟨[deviceInactive], []⟩ rfl ⟨.ok sig64, rfl⟩ rfl⟩

end GeoCam
